import Mathlib

/-!
Verification development for the api-recommender backend (Go).

The multi-turn slot-filling pipeline of `chat_service.go` (the evolved
version, the one that tracks relevance and event payloads) and
`recommend/recommend.go` is shallowly embedded here.  The external text
generator is modelled as an oracle `Prompt → Option String` (`none` is a
failed call); since every Go prompt is a fixed `Sprintf` template applied
to the data injected into it, a prompt is represented by a constructor of
the inductive `Prompt` carrying exactly those injected arguments.  JSON
decoding of generator responses (Go `encoding/json`, an external library)
is likewise supplied as an oracle per target shape; the repository's own
best-effort brace extraction `extractJSON` is translated directly.
Byte indices of Go `strings.Index` are modelled as rune indices
(all keywords involved are ASCII, where the two coincide).
-/

namespace UMI

/-- Substring containment on character lists: `sub` occurs as a prefix of some
suffix of the haystack. -/
def goContainsList (sub : List Char) : List Char → Bool
  | [] => sub.isPrefixOf ([] : List Char)
  | c :: t => sub.isPrefixOf (c :: t) || goContainsList sub t

/-- Go `strings.Contains`: substring containment (empty needle gives true). -/
def goContains (s sub : String) : Bool :=
  goContainsList sub.data s.data

/-- Go `strings.ToLower` (the keywords compared against it are ASCII). -/
def goToLower (s : String) : String :=
  ⟨s.data.map Char.toLower⟩

/-- Go `strings.TrimSpace`: strip leading and trailing whitespace. -/
def goTrim (s : String) : String :=
  ⟨((s.data.dropWhile Char.isWhitespace).reverse.dropWhile Char.isWhitespace).reverse⟩

/-- Go `strings.HasSuffix`. -/
def goHasSuffix (s suffix : String) : Bool :=
  suffix.data.isSuffixOf s.data

/-- Splitting a character list at every character satisfying `p` (keeping the
empty pieces, as Go's `strings.FieldsFunc` does not but `strings.Split` style
splitting does). -/
def splitByAux (p : Char → Bool) : List Char → List Char → List String
  | [], acc => [⟨acc.reverse⟩]
  | c :: t, acc =>
    if p c then ⟨acc.reverse⟩ :: splitByAux p t []
    else splitByAux p t (c :: acc)

/-- Go `strings.Fields`: split around runs of whitespace, dropping empties
(splitting at every whitespace character and dropping the empty pieces yields
exactly the maximal non-whitespace runs). -/
def goFields (s : String) : List String :=
  (splitByAux Char.isWhitespace s.data []).filter (fun p => p ≠ "")

/-- Helper for `goSplitOn`: `skip` counts separator characters still to be
consumed after a match (the separator is `s0 :: srest`). -/
def goSplitOnAux (s0 : Char) (srest : List Char) : List Char → Nat → List Char → List String
  | [], _, acc => [⟨acc.reverse⟩]
  | _ :: t, Nat.succ k, acc => goSplitOnAux s0 srest t k acc
  | c :: t, 0, acc =>
    if (s0 :: srest).isPrefixOf (c :: t) then
      ⟨acc.reverse⟩ :: goSplitOnAux s0 srest t srest.length []
    else goSplitOnAux s0 srest t 0 (c :: acc)

/-- Go `strings.Split` for a non-empty separator (the only way it is used
here: the separators are `"\n"` and `"\n\n"`). -/
def goSplitOn (s sep : String) : List String :=
  match sep.data with
  | [] => [s]
  | s0 :: srest => goSplitOnAux s0 srest s.data 0 []

/-- Helper for `goIndex`: first rune position where `sub` starts in the list. -/
def goIndexAux (sub : List Char) : List Char → Nat → Option Nat
  | [], i => if sub.isPrefixOf ([] : List Char) then some i else none
  | c :: t, i => if sub.isPrefixOf (c :: t) then some i else goIndexAux sub t (i + 1)

/-- Go `strings.Index`: index of the first occurrence of `sub`, `-1` if absent. -/
def goIndex (s sub : String) : Int :=
  match goIndexAux sub.data s.data 0 with
  | some n => (n : Int)
  | none => -1

/-- The opening curly brace character. -/
def curlyOpen : Char := Char.ofNat 123

/-- The closing curly brace character. -/
def curlyClose : Char := Char.ofNat 125

/-- `recommend.extractJSON`: the substring from the first opening brace to the
last closing brace when that span is non-degenerate, the input otherwise. -/
def extractJSON (s : String) : String :=
  let cs := s.data
  match cs.findIdx? (fun c => c = curlyOpen) with
  | none => s
  | some start =>
    match cs.reverse.findIdx? (fun c => c = curlyClose) with
    | none => s
    | some r =>
      let stop := cs.length - 1 - r
      if start < stop then ⟨(cs.drop start).take (stop - start + 1)⟩ else s

/-- `apiparser.APIField`. -/
structure APIField where
  Name : String
  Type' : String
  Description : String
deriving DecidableEq

/-- `apiparser.APIDoc`. -/
structure APIDoc where
  Name : String
  Path : String
  Method : String
  Description : String
  Fields : List APIField
deriving DecidableEq

instance : Inhabited APIDoc := ⟨⟨"", "", "", "", []⟩⟩

/-- `recommend.QueryInfo`: the slot set tracked across turns.  Go's nullable
booleans become `Option Bool` (`none` is unknown); Go's nil slices become
empty lists; `Operation` and `UseCase` are plain strings, empty when unset. -/
structure QueryInfo where
  IsAsync : Option Bool
  IsUMICompliant : Option Bool
  IsPrivate : Option Bool
  FieldNames : List String
  EventFields : List String
  Operation : String
  UseCase : String
deriving DecidableEq

/-- `recommend.Selection`: the parse target of the field-selection step. -/
structure Selection where
  APIIndex : Int
  FieldIndex : List Int
deriving DecidableEq

/-- Parse target of the extraction step in `ExtractQueryInfo` (the anonymous
Go struct unmarshalled from the generator's JSON). -/
structure ExtractResult where
  UseCase : String
  Operation : String
  IsAsync : Option Bool
  IsUMICompliant : Option Bool
  IsPrivate : Option Bool
  FieldNames : List String
  EventFields : List String
deriving DecidableEq

/-- Parse target of the classification step in `ClassifyQuery` (the `reason`
member of the Go struct is never read and is omitted). -/
structure ClassResult where
  IsCreationRequest : Bool
  IsRelevant : Bool
deriving DecidableEq

/-- A generator prompt.  Each Go prompt is a fixed string template applied via
`fmt.Sprintf` to the arguments listed on the corresponding constructor, so the
constructor together with its arguments determines the Go prompt string. -/
inductive Prompt where
  /-- API-selection prompt of `Recommend1`: the indexed catalog summaries and
  the usecase/operation-enhanced user request. -/
  | pickAPI (apiSummaries : List String) (enhancedUserRequest : String)
  /-- Field-selection prompt of `Recommend1`: chosen API name, path, indexed
  field summaries, and the raw user request. -/
  | fieldSelect (name path : String) (fieldSummaries : List String) (user : String)
  /-- Request-payload prompt of `Recommend1`: user request, the request-fields
  block, the event-fields warning block, and the chosen method and path (the
  embedded request-model snippet is a fixed literal). -/
  | payloadGen (user requestFieldsList eventFieldsWarning method path : String)
  /-- Event-payload prompt of `generateEventPayload`: the joined event fields. -/
  | eventGen (fieldsStr : String)
  /-- Classification prompt of `ClassifyQuery`: user query and recent history. -/
  | classify (userInput recentHistory : String)
  /-- Extraction prompt of `ExtractQueryInfo`: user query and context message. -/
  | extract (userInput contextMsg : String)
  /-- Targeted operation question prompt of `GenerateFollowUpQuestions`. -/
  | followUpOperation (useCase : String)
  /-- Consolidated follow-up prompt of `GenerateFollowUpQuestions`: the number
  of missing items and the formatted missing list. -/
  | followUpAll (numMissing : Nat) (missingList : String)
  /-- Field-question answering prompt of `AnswerFieldQuestion`. -/
  | fieldAnswer (userInput : String)
deriving DecidableEq

/-- A generator oracle: `none` models a failed completion call. -/
def Gen : Type := Prompt → Option String

/-- Errors surfaced by the embedded pipeline (Go `error` values). -/
inductive GoError where
  | emptyInput
  | loadHistoryFailed
  | answerFieldGen
  | pickAPIGen
  | parseAPIIndex
  | apiIndexOutOfRange
  | fieldSelectGen
  | parseFieldIndex
  | payloadGen
  | eventGen
  | saveFailed
deriving DecidableEq

instance {ε α : Type} [DecidableEq ε] [DecidableEq α] : DecidableEq (Except ε α) := fun a b =>
  match a, b with
  | .ok x, .ok y => decidable_of_iff (x = y) (by simp)
  | .error x, .error y => decidable_of_iff (x = y) (by simp)
  | .ok _, .error _ => isFalse (by simp)
  | .error _, .ok _ => isFalse (by simp)

/-! ### Intent and relevance classifier (`recommend.ClassifyQuery`) -/

/-- The off-topic lexicon checked first in `ClassifyQuery`. -/
def irrelevantKeywords : List String :=
  ["buy", "purchase", "sell", "lamborghini", "lamborgini", "car", "vehicle", "shopping"]

/-- The domain lexicon that suppresses the irrelevance check. -/
def apiRelatedCheck (lower : String) : Bool :=
  goContains lower "asset" || goContains lower "bond" ||
    goContains lower "token" || goContains lower "transaction" ||
    goContains lower "api" || goContains lower "payload"

/-- The explanation lexicon of `ClassifyQuery` (checked before the generator). -/
def explainKeywords : List String :=
  ["explain", "what is", "what does", "tell me about", "how does", "describe", "meaning of"]

/-- The explanation lexicon of `classifyQueryFallback` (one entry shorter). -/
def fallbackExplainKeywords : List String :=
  ["explain", "what is", "what does", "tell me about", "how does", "describe"]

/-- The creation lexicon shared by `classifyQueryFallback` and
`isNewCreationRequest`. -/
def creationKeywords : List String :=
  ["create", "make", "generate", "build", "new", "want to", "need to", "burn", "lock"]

/-- `recommend.getRecentHistory`: keep the last `n * 2` newline-separated
lines of the history. -/
def getRecentHistory (history : String) (n : Nat) : String :=
  if history = "" then ""
  else
    let lines := goSplitOn history "\n"
    if lines.length ≤ n * 2 then history
    else String.intercalate "\n" (lines.drop (lines.length - n * 2))

/-- `recommend.classifyQueryFallback`: deterministic classification used when
the generator call or parse fails. -/
def classifyQueryFallback (userInput : String) : Bool :=
  let lower := goToLower userInput
  if fallbackExplainKeywords.any (fun k => goContains lower k) then false
  else if creationKeywords.any (fun k => goContains lower k) then true
  else if (goFields lower).length ≤ 3 then true
  else false

/-- `recommend.ClassifyQuery`, returning `(isCreationRequest, isRelevant)`.
Every `return` site of the Go function carries a `nil` error, so the error
component is omitted.  The first hit of the irrelevance loop returns
`(false, false)`; since the domain check does not depend on the matched
keyword, the loop is equivalent to the conjunction below. -/
def ClassifyQuery (gen : Gen) (parseClass : String → Option ClassResult)
    (userInput history : String) : Bool × Bool :=
  let lower := goToLower userInput
  if irrelevantKeywords.any (fun k => goContains lower k) && !apiRelatedCheck lower then
    (false, false)
  else if explainKeywords.any (fun k => goContains lower k) then
    (false, true)
  else
    match gen (.classify userInput (getRecentHistory history 3)) with
    | none => (classifyQueryFallback userInput, true)
    | some response =>
      match parseClass (extractJSON response) with
      | none => (classifyQueryFallback userInput, true)
      | some result =>
        if !result.IsRelevant then (false, false)
        else (result.IsCreationRequest, true)

/-! ### Slot extractor (`recommend.ExtractQueryInfo`) -/

/-- The usecase lexicon of `extractQueryInfoFallback`.  The Go code ranges
over a map and stops at the first hit; map iteration order is unspecified in
Go, so the source-listing order is fixed here. -/
def usecaseKeywords : List (String × String) :=
  [("insurance", "insurance"), ("fd", "fd"), ("fixed deposit", "fd"),
   ("gold bond", "gold bond"), ("bond", "bond"),
   ("mutual fund", "mutual fund"), ("mf", "mutual fund")]

/-- The known-field lexicon scanned by `extractQueryInfoFallback`.  The scan
is over the lowered text while several entries contain upper-case letters, so
those entries can never match; this is translated as written. -/
def commonFields : List String :=
  ["id", "value", "key", "toWalletAddress", "fromWalletAddress",
   "walletAddress", "requestId", "msgId", "name", "type", "event", "eventType",
   "startYear", "endYear", "policyNumber", "premium", "coverageAmount",
   "principal", "interestRate", "tenure", "maturityDate",
   "quantity", "purity", "price", "units", "nav", "investmentAmount"]

/-- `recommend.extractQueryInfoFallback`: the deterministic keyword-heuristic
extraction over the user input prefixed by the context (when non-empty). -/
def extractQueryInfoFallback (userInput context : String) : QueryInfo :=
  let textToAnalyze := if context ≠ "" then context ++ " " ++ userInput else userInput
  let lower := goToLower textToAnalyze
  let useCase :=
    match usecaseKeywords.find? (fun kv =>
        (goContains lower kv.1 && goContains lower "usecase") ||
          (goContains lower "build" && goContains lower kv.1)) with
    | some kv => kv.2
    | none => ""
  let operation :=
    if goContains lower "create" || goContains lower "issue" then "create"
    else if goContains lower "burn" || goContains lower "manage" then "burn"
    else if goContains lower "trade" || goContains lower "settle" then "trade"
    else ""
  let isAsync :=
    if goContains lower "async" || goContains lower "asynchronous" then
      let asyncFalse := goContains lower "not async" ||
        goContains lower "no async" ||
        goContains lower "async: no" ||
        goContains lower "async=false" ||
        goContains lower "async no" ||
        (goContains lower "async" && goContains lower "no" &&
          goIndex lower "async" < goIndex lower "no" + 10)
      if asyncFalse then some false else some true
    else if context ≠ "" then
      -- Translated as written: inside this branch `lower` cannot contain
      -- "async", so neither inner condition can fire.
      if (goContains lower "async" || goContains lower "asynchronous") &&
          (goContains lower " yes" || goContains lower "\nyes" ||
            goContains lower "yes\n" || goContains lower "yes,") then
        some true
      else if (goContains lower "async" || goContains lower "asynchronous") &&
          (goContains lower " no" || goContains lower "\nno" ||
            goContains lower "no\n" || goContains lower "no,") then
        some false
      else none
    else none
  let isUMICompliant :=
    if goContains lower "umi compliant" || goContains lower "umi-compliant" then
      let umiFalse := goContains lower "not umi" ||
        goContains lower "no umi" ||
        goContains lower "umi: no" ||
        goContains lower "umi=false" ||
        goContains lower "umi no" ||
        (goContains lower "umi" && goContains lower "no" &&
          goIndex lower "umi" < goIndex lower "no" + 15)
      if umiFalse then some false else some true
    else if goContains lower "umi" && !goContains lower "explain" then
      if goContains lower " yes" || goContains lower "\nyes" ||
          goContains lower "yes\n" || goContains lower "yes," then
        some true
      else if goContains lower " no" || goContains lower "\nno" ||
          goContains lower "no\n" || goContains lower "no," then
        some false
      else none
    else none
  let isPrivate :=
    if goContains lower "private" && !goContains lower "public" then some true
    else if goContains lower "public" then some false
    else none
  let fieldNames := commonFields.filter (fun field =>
    goContains lower field && !goContains lower ("explain " ++ field) &&
      !goContains lower ("what is " ++ field))
  { IsAsync := isAsync, IsUMICompliant := isUMICompliant, IsPrivate := isPrivate,
    FieldNames := fieldNames, EventFields := [],
    Operation := operation, UseCase := useCase }

/-- The context message of `ExtractQueryInfo` for a new request. -/
def newRequestContextMsg : String :=
  "Previous conversation context: IGNORE - this is a new request, start fresh. Do NOT extract event_fields from previous requests. If async is true in this new request, event_fields should be empty (will be asked separately)."

/-- The context message of `ExtractQueryInfo` for a continuation, wrapping the
selected history window. -/
def continuationContextMsg (contextToUse : String) : String :=
  "Recent conversation context (this is a CONTINUATION - user is answering questions):\n" ++
  contextToUse ++
  "\n\nIMPORTANT: Look for question-answer pairs. For example:\n- If you see \"Is this async?\" followed by \"yes\" or \"no\" → extract that answer\n- If you see \"Is this UMI compliant?\" followed by \"yes\" or \"no\" → extract that answer  \n- If you see \"Is this private or public?\" followed by \"private\" or \"public\" → extract that answer\n- If you see field names mentioned → extract them\n- For event_fields: only extract if user explicitly mentions event fields in THIS request\x27s conversation\n\nExtract information from BOTH the current query AND the conversation context above."

/-- The extraction context selected by `ExtractQueryInfo`: forced empty for a
new request, the caller-supplied history window otherwise. -/
def extractionContext (history : String) (isNewRequest : Bool) : String :=
  if isNewRequest then "" else history

/-- The context message handed to the extraction prompt: the new-request
marker when the context is empty, the continuation wrapper otherwise. -/
def extractionContextMsg (history : String) (isNewRequest : Bool) : String :=
  if extractionContext history isNewRequest = "" then newRequestContextMsg
  else continuationContextMsg (extractionContext history isNewRequest)

/-- `recommend.ExtractQueryInfo`.  When `isNewRequest` holds the caller's
history is discarded and the empty context is used throughout.  Every `return`
site of the Go function carries a `nil` error: a failed generator call or
parse is absorbed by `extractQueryInfoFallback`.  When the parse succeeds but
provides none of the three tri-states, no field names, and no usecase, the
fallback fills the still-unset fields (the Go merge block). -/
def ExtractQueryInfo (gen : Gen) (parseExtract : String → Option ExtractResult)
    (userInput history : String) (isNewRequest : Bool) : Except GoError QueryInfo :=
  let contextToUse := extractionContext history isNewRequest
  match gen (.extract userInput (extractionContextMsg history isNewRequest)) with
  | none => .ok (extractQueryInfoFallback userInput contextToUse)
  | some response =>
    match parseExtract (extractJSON response) with
    | none => .ok (extractQueryInfoFallback userInput contextToUse)
    | some result =>
      let info : QueryInfo :=
        { UseCase := result.UseCase, Operation := result.Operation,
          IsAsync := result.IsAsync, IsUMICompliant := result.IsUMICompliant,
          IsPrivate := result.IsPrivate, FieldNames := result.FieldNames,
          EventFields := result.EventFields }
      if info.IsAsync = none ∧ info.IsUMICompliant = none ∧ info.IsPrivate = none ∧
          info.FieldNames = [] ∧ info.UseCase = "" then
        let fallbackInfo := extractQueryInfoFallback userInput contextToUse
        .ok { UseCase := if info.UseCase = "" then fallbackInfo.UseCase else info.UseCase,
              Operation := if info.Operation = "" then fallbackInfo.Operation else info.Operation,
              IsAsync := if info.IsAsync = none then fallbackInfo.IsAsync else info.IsAsync,
              IsUMICompliant :=
                if info.IsUMICompliant = none then fallbackInfo.IsUMICompliant
                else info.IsUMICompliant,
              IsPrivate := if info.IsPrivate = none then fallbackInfo.IsPrivate else info.IsPrivate,
              FieldNames := if info.FieldNames = [] then fallbackInfo.FieldNames else info.FieldNames,
              EventFields := info.EventFields }
      else .ok info

/-! ### Follow-up question composer (`recommend.GenerateFollowUpQuestions`) -/

/-- `recommend.getUsecaseFields`: the static usecase → operation → fields
table, with the Go fallthrough to the "create" row of a known usecase. -/
def usecaseFieldTable : List (String × List (String × List String)) :=
  [("insurance",
    [("create", ["startYear", "endYear", "policyNumber", "premium", "coverageAmount", "type"]),
     ("burn", ["policyNumber", "type", "id"]),
     ("trade", ["policyNumber", "type", "id", "value"])]),
   ("fd",
    [("create", ["principal", "interestRate", "tenure", "maturityDate", "type"]),
     ("burn", ["id", "type", "principal"]),
     ("trade", ["id", "type", "value", "principal"])]),
   ("gold bond",
    [("create", ["quantity", "purity", "price", "type", "id"]),
     ("burn", ["id", "type", "quantity"]),
     ("trade", ["id", "type", "value", "quantity"])]),
   ("bond",
    [("create", ["quantity", "purity", "price", "type", "id"]),
     ("burn", ["id", "type", "quantity"]),
     ("trade", ["id", "type", "value", "quantity"])]),
   ("mutual fund",
    [("create", ["units", "nav", "investmentAmount", "type", "id"]),
     ("burn", ["id", "type", "units"]),
     ("trade", ["id", "type", "value", "units"])])]

/-- `recommend.getUsecaseFields`. -/
def getUsecaseFields (usecase operation : String) : List String :=
  match usecaseFieldTable.lookup (goToLower usecase) with
  | some opMap =>
    match opMap.lookup (goToLower operation) with
    | some fields => fields
    | none =>
      match opMap.lookup "create" with
      | some fields => fields
      | none => []
  | none => []

/-- One missing-slot item collected by `GenerateFollowUpQuestions`.  The Go
code builds the item strings directly; here each item is a descriptor carrying
the data injected into the corresponding string, and `renderItem` produces the
exact Go text, so the Go missing list is `(missingItems info).map renderItem`. -/
inductive MissingItem where
  /-- "Is this request async? (yes/no)" -/
  | askAsync
  /-- "Is this UMI compliant? (yes/no)" -/
  | askUMI
  /-- "Is this private or public?" -/
  | askPrivate
  /-- The request-payload field item, carrying the usecase, the operation used
  for the suggestion lookup, and the suggested fields. -/
  | askFields (useCase operation : String) (suggested : List String)
  /-- The event-payload field item emitted when async is true. -/
  | askEventFields
deriving DecidableEq

/-- The exact Go text of a missing-slot item. -/
def renderItem : MissingItem → String
  | .askAsync => "Is this request async? (yes/no)"
  | .askUMI => "Is this UMI compliant? (yes/no)"
  | .askPrivate => "Is this private or public?"
  | .askFields useCase operation suggested =>
    if useCase ≠ "" then
      if suggested ≠ [] then
        "Please provide at least one field name for the REQUEST payload. Suggested fields for " ++
          useCase ++ " (" ++ operation ++ "): " ++ String.intercalate ", " suggested
      else
        "Please provide at least one field name for the REQUEST payload (e.g., id, type, value, etc.)"
    else
      "Please provide at least one field name for the REQUEST payload (e.g., id, type, value, etc.)"
  | .askEventFields =>
    "Since this is an async request, please provide at least one field name for the EVENT payload separately (e.g., id, type, eventType, timestamp, etc.). Note: Event payload fields are different from request payload fields."

/-- The operation used for the field-suggestion lookup: the extracted
operation, defaulting to "create" when unset. -/
def suggestionOperation (info : QueryInfo) : String :=
  if info.Operation = "" then "create" else info.Operation

/-- The missing-slot items collected by `GenerateFollowUpQuestions`, in the
order the Go code appends them. -/
def missingItems (info : QueryInfo) : List MissingItem :=
  (if info.IsAsync = none then [.askAsync] else []) ++
  (if info.IsUMICompliant = none then [.askUMI] else []) ++
  (if info.IsPrivate = none then [.askPrivate] else []) ++
  (if info.FieldNames = [] then
    [.askFields info.UseCase (suggestionOperation info)
      (getUsecaseFields info.UseCase (suggestionOperation info))]
  else []) ++
  (if info.IsAsync = some true ∧ info.EventFields = [] then [.askEventFields] else [])

/-- The formatted missing list embedded in the consolidated follow-up prompt:
numbered lines, the last item prefixed with "and" when there are several. -/
def buildMissingList (missing : List String) : String :=
  let numMissing := missing.length
  String.join (missing.enum.map (fun p =>
    if p.1 = numMissing - 1 ∧ numMissing > 1 then
      "and " ++ toString (p.1 + 1) ++ ". " ++ p.2
    else
      toString (p.1 + 1) ++ ". " ++ p.2 ++ "\n"))

/-- The deterministic numbered-list fallback of the consolidated follow-up
question (used when the generator paraphrase fails). -/
def numberedFallback (missing : List String) : String :=
  "To proceed with your request, I need the following information:\n" ++
  String.join (missing.enum.map (fun p => toString (p.1 + 1) ++ ". " ++ p.2 ++ "\n")) ++
  "Please provide all of these details at once."

/-- The deterministic fallback of the targeted operation question. -/
def operationFallback (useCase : String) : String :=
  "For " ++ useCase ++ " usecase, which operation do you want to perform?\n\n- CREATE/ISSUE → use req issue API\n- BURN/MANAGE → use req manage API\n- TRADE/SETTLE → use req settle API\n\nPlease specify: create, burn, or trade"

/-- `recommend.GenerateFollowUpQuestions`.  Every `return` site of the Go
function carries a `nil` error, so the result is a plain string. -/
def GenerateFollowUpQuestions (gen : Gen) (info : QueryInfo) : String :=
  if info.UseCase ≠ "" ∧ info.Operation = "" then
    match gen (.followUpOperation info.UseCase) with
    | none => operationFallback info.UseCase
    | some response => goTrim response
  else
    let missing := (missingItems info).map renderItem
    if missing = [] then ""
    else
      match gen (.followUpAll missing.length (buildMissingList missing)) with
      | none => numberedFallback missing
      | some response => goTrim response

/-! ### Field-question answering (`recommend.AnswerFieldQuestion`) -/

/-- The canned answer for "UMI compliant" questions. -/
def umiCompliantAnswer : String :=
  "UMI compliant means that a request adheres to the **Unified Market Interface** (UMI) compliance standard. UMI is a standard that ensures interoperability and standardization across different market participants and systems. When a request is UMI compliant, it means it follows the Unified Market Interface specifications for data exchange and communication protocols."

/-- The canned answer for "UMI" explanation questions. -/
def umiAnswer : String :=
  "UMI stands for **Unified Market Interface**. It\x27s a compliance standard that ensures interoperability and standardization across different market participants and systems. When a request is UMI compliant, it means it adheres to the Unified Market Interface specifications for data exchange and communication protocols."

/-- The canned answer for "async" field questions. -/
def asyncAnswer : String :=
  "In the UMI project, the **async** field (or **isAsync**) is a boolean flag in the request context that determines how the API request is processed.\n\n**Async Flow (isAsync = true):**\n1. FSP commits the transaction on DLT (Distributed Ledger Technology)\n2. Chaincode sends an event to FSP via gRPC\n3. FSP produces the event in Kafka\n4. Backend consumes the event from Kafka\n\n**Sync Flow (isAsync = false or omitted):**\nThe API processes the request synchronously, waiting for the operation to complete before returning a response.\n\nWhen you set \x27isAsync: true\x27 in your request, the system follows the async flow where the transaction is committed on DLT first, then events are propagated through gRPC and Kafka for backend processing."

/-- `recommend.AnswerFieldQuestion`.  The history argument is never read by
the Go function (field questions are answered from the current question
only). -/
def AnswerFieldQuestion (gen : Gen) (userInput _history : String) : Except GoError String :=
  let lower := goToLower userInput
  if goContains lower "umi compliant" || goContains lower "umi-compliant" then
    .ok umiCompliantAnswer
  else if goContains lower "umi" && (goContains lower "explain" ||
      goContains lower "what is" || goContains lower "what does" ||
      goContains lower "meaning" || goContains lower "stand for" ||
      goContains lower "full form" || goContains lower "fullform") then
    .ok umiAnswer
  else if goContains lower "async" && (goContains lower "what is" ||
      goContains lower "explain" || goContains lower "what does" ||
      goContains lower "field" || goContains lower "sync vs async" ||
      goContains lower "sync versus async" || goContains lower "difference") then
    .ok asyncAnswer
  else
    match gen (.fieldAnswer userInput) with
    | none => .error .answerFieldGen
    | some response => .ok (goTrim response)

/-! ### Recommendation engine (`recommend.Recommend1`) -/

/-- One line of the catalog summary of the API-selection prompt. -/
def apiSummary (i : Nat) (a : APIDoc) : String :=
  "[" ++ toString i ++ "] " ++ a.Method ++ " " ++ a.Path ++ " - " ++ a.Description

/-- The indexed catalog summaries of the API-selection prompt. -/
def mkAPISummaries (apis : List APIDoc) : List String :=
  apis.enum.map (fun p => apiSummary p.1 p.2)

/-- The static operation → API-type hint table of `Recommend1`. -/
def operationMap : List (String × String) :=
  [("create", "req issue"), ("burn", "req manage"), ("trade", "req settle")]

/-- The usecase/operation-enhanced user request of the API-selection prompt. -/
def enhancedUserRequest (user : String) (queryInfo : Option QueryInfo) : String :=
  match queryInfo with
  | none => user
  | some q =>
    let withUsecase := if q.UseCase ≠ "" then user ++ " (usecase: " ++ q.UseCase ++ ")" else user
    if q.Operation ≠ "" then
      match operationMap.lookup q.Operation with
      | some apiType =>
        withUsecase ++ " (operation: " ++ q.Operation ++ ", API type: " ++ apiType ++ ")"
      | none => withUsecase
    else withUsecase

/-- The catalog entry at a range-checked index. -/
def chosenAPI (apis : List APIDoc) (apiIndex : Int) : APIDoc :=
  apis.getD apiIndex.toNat default

/-- One line of the field summary of the field-selection prompt. -/
def fieldSummary (i : Nat) (f : APIField) : String :=
  "[" ++ toString i ++ "] " ++ f.Name ++ " (" ++ f.Type' ++ ") - " ++ f.Description

/-- The indexed field summaries of the field-selection prompt. -/
def mkFieldSummaries (fields : List APIField) : List String :=
  fields.enum.map (fun p => fieldSummary p.1 p.2)

/-- The field-selection prompt for the chosen API. -/
def mkFieldSelectPrompt (apis : List APIDoc) (apiIndex : Int) (user : String) : Prompt :=
  let chosen := chosenAPI apis apiIndex
  .fieldSelect chosen.Name chosen.Path (mkFieldSummaries chosen.Fields) user

/-- The request-fields block of the payload prompt (empty unless field names
are known). -/
def requestFieldsList (queryInfo : Option QueryInfo) : String :=
  match queryInfo with
  | none => ""
  | some q =>
    if q.FieldNames ≠ [] then
      let usecaseContext :=
        if q.UseCase ≠ "" then
          " (for " ++ q.UseCase ++ " usecase" ++
            (if q.Operation ≠ "" then " - " ++ q.Operation ++ " operation" else "") ++ ")"
        else ""
      "\n\n### CRITICAL: Fields for REQUEST PAYLOAD ONLY" ++ usecaseContext ++
        "\nUse ONLY these fields in the request payload: " ++
        String.intercalate ", " q.FieldNames ++
        "\nDO NOT include any event-related fields (id, type, eventType, timestamp, etc.) in the request payload.\nEvent fields will be handled separately in the event payload."
    else ""

/-- The event-fields warning block of the payload prompt (empty unless event
fields are known). -/
def eventFieldsWarning (queryInfo : Option QueryInfo) : String :=
  match queryInfo with
  | none => ""
  | some q =>
    if q.EventFields ≠ [] then
      "\n\n### CRITICAL: DO NOT INCLUDE EVENT FIELDS IN REQUEST PAYLOAD\nThe following fields are for EVENT payload ONLY (not request payload): " ++
        String.intercalate ", " q.EventFields ++
        "\nThese fields should NOT appear in the request payload you generate."
    else ""

/-- The request-payload prompt for the chosen API. -/
def mkPayloadPrompt (user : String) (queryInfo : Option QueryInfo)
    (apis : List APIDoc) (apiIndex : Int) : Prompt :=
  let chosen := chosenAPI apis apiIndex
  .payloadGen user (requestFieldsList queryInfo) (eventFieldsWarning queryInfo)
    chosen.Method chosen.Path

/-- `recommend.generateEventPayload`: one generator call on the event prompt,
trimmed on success. -/
def generateEventPayload (gen : Gen) (eventFields : List String) : Except GoError String :=
  match gen (.eventGen (String.intercalate ", " eventFields)) with
  | none => .error .eventGen
  | some response => .ok (goTrim response)

/-- The fields picked by the field-selection step: indices outside the chosen
API's field range are silently dropped. -/
def pickedFields (chosen : APIDoc) (sel : Selection) : List APIField :=
  sel.FieldIndex.filterMap (fun idx =>
    if 0 ≤ idx ∧ idx < (chosen.Fields.length : Int) then
      some (chosen.Fields.getD idx.toNat ⟨"", "", ""⟩)
    else none)

/-- The event payload computed at the end of `Recommend1`: the event-payload
generator is consulted exactly when the query info is present with
`IsAsync = true` and non-empty event fields, and a failed event generation is
absorbed as the empty string (the Go code logs nothing and proceeds). -/
def eventPayloadResult (gen : Gen) (queryInfo : Option QueryInfo) : String :=
  match queryInfo with
  | some qi =>
    if qi.IsAsync = some true ∧ qi.EventFields ≠ [] then
      match generateEventPayload gen qi.EventFields with
      | .ok ev => ev
      | .error _ => ""
    else ""
  | none => ""

/-- `recommend.Recommend1`: API selection, field selection, request-payload
synthesis, and optional event-payload synthesis.  Go returns zero values next
to a non-nil error; the error cases are modelled by `Except.error` (callers
only read the data when the error is nil).  The `NewGroqLLM` construction at
the top of the Go function is external environment configuration and is not
part of the pipeline model. -/
def Recommend1 (gen : Gen) (parseAPIIndex : String → Option Int)
    (parseSelection : String → Option Selection) (apis : List APIDoc)
    (user : String) (queryInfo : Option QueryInfo) :
    Except GoError (APIDoc × List APIField × String × String) :=
  match gen (.pickAPI (mkAPISummaries apis) (enhancedUserRequest user queryInfo)) with
  | none => .error .pickAPIGen
  | some apiJSON =>
    match parseAPIIndex (extractJSON apiJSON) with
    | none => .error .parseAPIIndex
    | some apiIndex =>
      if apiIndex < 0 ∨ (apis.length : Int) ≤ apiIndex then .error .apiIndexOutOfRange
      else
        let chosen := chosenAPI apis apiIndex
        match gen (mkFieldSelectPrompt apis apiIndex user) with
        | none => .error .fieldSelectGen
        | some fieldsJSON =>
          match parseSelection (extractJSON fieldsJSON) with
          | none => .error .parseFieldIndex
          | some step2 =>
            let picked := pickedFields chosen step2
            match gen (mkPayloadPrompt user queryInfo apis apiIndex) with
            | none => .error .payloadGen
            | some payloadResp =>
              let samplePayload := goTrim payloadResp
              .ok (chosen, picked, samplePayload, eventPayloadResult gen queryInfo)

/-! ### Chat service (`chat_service.go`, evolved version) -/

/-- `chat_service.isNewCreationRequest`: detect whether the utterance starts a
fresh creation request.  The history argument is never read by the Go
function.  The Go keyword loop returns true on the first keyword whose guard
fires; after the loop both remaining paths return false. -/
def isNewCreationRequest (userInput _history : String) : Bool :=
  let lower := goToLower userInput
  let isJustAnswer := goContains lower "yes" || goContains lower "no"
  let domainNoun := goContains lower "asset" || goContains lower "bond" ||
    goContains lower "transaction" || goContains lower "gold" || goContains lower "token"
  if creationKeywords.any (fun keyword =>
      goContains lower keyword &&
        ((goContains lower keyword && domainNoun) ||
          (!isJustAnswer && decide ((goFields lower).length > 2)))) then
    true
  else if (goFields lower).length ≤ 3 then false
  else false

/-- `chat_service.getRecentHistoryForContext`: keep the last `n` blank-line
separated parts of the history. -/
def getRecentHistoryForContext (history : String) (n : Nat) : String :=
  if history = "" then ""
  else
    let parts := goSplitOn history "\n\n"
    if parts.length ≤ n then history
    else String.intercalate "\n\n" (parts.drop (parts.length - n))

/-- `chat_service.composeConversationAwareRequest`. -/
def composeConversationAwareRequest (history latest : String) : String :=
  let latest := goTrim latest
  if history = "" then latest
  else "Conversation so far:\n" ++ history ++ "\n\nLatest user request: " ++ latest

/-- `chat_service.formatRecommendation` (the evolved version, with the event
payload section). -/
def formatRecommendation (api : APIDoc) (fields : List APIField)
    (samplePayload eventPayload : String) : String :=
  let header := "Recommended API:\n" ++ " Name: " ++ api.Name ++ "\n Path: " ++ api.Path ++
    "\n Method: " ++ api.Method ++ "\n Description: " ++ api.Description ++ "\n"
  let withFields :=
    if fields = [] then header ++ "Suggested fields: not required\n"
    else header ++ "Suggested fields:\n" ++
      String.join (fields.map (fun f =>
        " - " ++ f.Name ++ " (" ++ f.Type' ++ "): " ++ f.Description ++ "\n"))
  let sp := goTrim samplePayload
  let withPayload :=
    if sp ≠ "" then
      withFields ++ "Sample payload:\n" ++ sp ++ (if goHasSuffix sp "\n" then "" else "\n")
    else withFields
  let ep := goTrim eventPayload
  let withEvent :=
    if ep ≠ "" then
      withPayload ++ "\nEvent payload (for async requests):\n" ++ ep ++
        (if goHasSuffix ep "\n" then "" else "\n")
    else withPayload
  goTrim withEvent

/-- The completeness gate computed inline in `ProcessMessage` (chat_service.go
lines 476-489): the four base requirements, the usecase-requires-operation
rule, and the async-requires-event-fields rule. -/
def hasAllInfo (queryInfo : QueryInfo) : Bool :=
  let base := queryInfo.IsAsync.isSome && queryInfo.IsUMICompliant.isSome &&
    queryInfo.IsPrivate.isSome && decide (queryInfo.FieldNames.length > 0)
  let gated := if queryInfo.UseCase ≠ "" ∧ queryInfo.Operation = "" then false else base
  if queryInfo.IsAsync = some true then gated && decide (queryInfo.EventFields.length > 0)
  else gated

/-- The fixed redirect message for irrelevant requests. -/
def redirectMessage : String :=
  "I\x27m an AI agent for the UMI (Unified Market Interface) project. I can help you with UMI project-related requests like creating assets, bonds, transactions, or answering questions about API fields and project-specific concepts. Your request doesn\x27t seem to be related to the UMI project. How can I help you with UMI-related tasks?"

/-- The external collaborators of one `ProcessMessage` turn: the generator,
the JSON decoders, the loaded history (none models a load failure), whether
the history append succeeds, the fresh session id `uuid.NewString()` would
produce, and the parsed API catalog. -/
structure Deps where
  gen : Gen
  parseClass : String → Option ClassResult
  parseExtract : String → Option ExtractResult
  parseAPIIndex : String → Option Int
  parseSelection : String → Option Selection
  loadHistory : Option String
  saveOk : Bool
  freshID : String
  apis : List APIDoc

/-- The `SaveContext` step ending a successful turn: on success the
`(input, response)` pair is appended to the conversation history; on failure
the turn surfaces an error, the response is dropped, and nothing is
appended. -/
def saveContext (d : Deps) (store : List (String × String))
    (session input response : String) :
    String × String × Option GoError × List (String × String) :=
  if d.saveOk then (response, session, none, store ++ [(input, response)])
  else ("", session, some .saveFailed, store)

/-- `ChatService.ProcessMessage` (the evolved version): returns the response
text, the session id handed back to the caller, the turn's error (if any),
and the updated conversation history.  The Go classification-failure and
extraction-failure branches are unreachable because `ClassifyQuery` and
`ExtractQueryInfo` return nil errors on every path, as does
`GenerateFollowUpQuestions`. -/
def ProcessMessage (d : Deps) (store : List (String × String))
    (sessionID userInput0 : String) :
    String × String × Option GoError × List (String × String) :=
  let userInput := goTrim userInput0
  if userInput = "" then ("", sessionID, some .emptyInput, store)
  else
    let trimmedSession := if goTrim sessionID = "" then d.freshID else goTrim sessionID
    match d.loadHistory with
    | none => ("", sessionID, some .loadHistoryFailed, store)
    | some history =>
      let classified := ClassifyQuery d.gen d.parseClass userInput history
      if !classified.2 then
        saveContext d store trimmedSession userInput redirectMessage
      else if !classified.1 then
        match AnswerFieldQuestion d.gen userInput "" with
        | .error e => ("", trimmedSession, some e, store)
        | .ok response => saveContext d store trimmedSession userInput response
      else
        let isNewRequest := isNewCreationRequest userInput history
        let recentHistory :=
          if isNewRequest then getRecentHistoryForContext history 2
          else getRecentHistoryForContext history 10
        match ExtractQueryInfo d.gen d.parseExtract userInput recentHistory isNewRequest with
        | .error e => ("", trimmedSession, some e, store)
        | .ok queryInfo =>
          if !hasAllInfo queryInfo then
            saveContext d store trimmedSession userInput
              (GenerateFollowUpQuestions d.gen queryInfo)
          else
            let prompt := composeConversationAwareRequest recentHistory userInput
            match Recommend1 d.gen d.parseAPIIndex d.parseSelection d.apis prompt
                (some queryInfo) with
            | .error e => ("", trimmedSession, some e, store)
            | .ok (api, fields, samplePayload, eventPayload) =>
              saveContext d store trimmedSession userInput
                (formatRecommendation api fields samplePayload eventPayload)

/-! ## Theorems -/

/-- Helper: the completeness gate as a boolean formula over the slots. -/
theorem hasAllInfo_char (q : QueryInfo) :
    hasAllInfo q = true ↔
      (q.IsAsync ≠ none ∧ q.IsUMICompliant ≠ none ∧ q.IsPrivate ≠ none ∧
       q.FieldNames ≠ [] ∧ (q.UseCase = "" ∨ q.Operation ≠ "") ∧
       (q.IsAsync ≠ some true ∨ q.EventFields ≠ [])) := by
  obtain ⟨a, u, p, f, e, o, uc⟩ := q
  simp only [hasAllInfo]
  rcases a with _ | b
  · simp
  · rcases b <;> by_cases huc : uc = "" <;> by_cases ho : o = "" <;>
      simp [huc, ho, List.length_pos, Option.isSome_iff_ne_none] <;> tauto

/-- Helper: the missing-slot list is empty exactly when every gate condition
other than the usecase-requires-operation rule is met. -/
theorem missingItems_eq_nil_iff (info : QueryInfo) :
    missingItems info = [] ↔
      (info.IsAsync ≠ none ∧ info.IsUMICompliant ≠ none ∧ info.IsPrivate ≠ none ∧
       info.FieldNames ≠ [] ∧ ¬(info.IsAsync = some true ∧ info.EventFields = [])) := by
  by_cases h1 : info.IsAsync = none <;>
    by_cases h2 : info.IsUMICompliant = none <;>
    by_cases h3 : info.IsPrivate = none <;>
    by_cases h4 : info.FieldNames = [] <;>
    by_cases h5 : info.IsAsync = some true ∧ info.EventFields = [] <;>
    simp [missingItems, h1, h2, h3, h4, h5]

/-- C1: for every `QueryInfo`, the completeness gate `hasAllInfo` computed in
`ProcessMessage` is true exactly when `IsAsync`, `IsUMICompliant`, and
`IsPrivate` are known, `FieldNames` is non-empty, the usecase is unset or the
operation is set, and `IsAsync` is not true or `EventFields` is non-empty —
the boolean formula of section 4.4, over all slot combinations. -/
theorem hasAllInfo_matches_gate_formula (q : QueryInfo) :
    hasAllInfo q = true ↔
      (q.IsAsync ≠ none ∧ q.IsUMICompliant ≠ none ∧ q.IsPrivate ≠ none ∧
       q.FieldNames ≠ [] ∧ (q.UseCase = "" ∨ q.Operation ≠ "") ∧
       (q.IsAsync ≠ some true ∨ q.EventFields ≠ [])) :=
  hasAllInfo_char q

/-- C2: if the API-selection response parses to an index outside the catalog
range, `Recommend1` fails with the index-out-of-range error — no API, fields,
request payload, or event payload are produced and no later pipeline stage
runs. -/
theorem recommend1_out_of_range_is_fatal (gen : Gen) (parseAPIIdx : String → Option Int)
    (parseSel : String → Option Selection) (apis : List APIDoc)
    (user : String) (queryInfo : Option QueryInfo) (resp : String) (idx : Int)
    (hgen : gen (.pickAPI (mkAPISummaries apis) (enhancedUserRequest user queryInfo)) = some resp)
    (hparse : parseAPIIdx (extractJSON resp) = some idx)
    (hrange : idx < 0 ∨ (apis.length : Int) ≤ idx) :
    Recommend1 gen parseAPIIdx parseSel apis user queryInfo = .error .apiIndexOutOfRange := by
  simp only [Recommend1, hgen, hparse]
  rw [if_pos hrange]

/-- C2 witness: a mocked generator answering index 999 against a 3-entry
catalog makes `Recommend1` fail with the index-out-of-range error. -/
theorem recommend1_out_of_range_is_fatal_witness :
    ((fun _ => some "resp") : Gen)
        (.pickAPI (mkAPISummaries [⟨"A", "/a", "POST", "a", []⟩, ⟨"B", "/b", "POST", "b", []⟩,
          ⟨"C", "/c", "POST", "c", []⟩]) (enhancedUserRequest "u" none)) = some "resp" ∧
    ((fun _ => some 999) : String → Option Int) (extractJSON "resp") = some 999 ∧
    ((999 : Int) < 0 ∨ (([⟨"A", "/a", "POST", "a", []⟩, ⟨"B", "/b", "POST", "b", []⟩,
      ⟨"C", "/c", "POST", "c", []⟩] : List APIDoc).length : Int) ≤ 999) ∧
    Recommend1 (fun _ => some "resp") (fun _ => some 999) (fun _ => some ⟨0, []⟩)
      [⟨"A", "/a", "POST", "a", []⟩, ⟨"B", "/b", "POST", "b", []⟩, ⟨"C", "/c", "POST", "c", []⟩]
      "u" none = .error .apiIndexOutOfRange :=
  ⟨rfl, rfl, by decide,
    recommend1_out_of_range_is_fatal (fun _ => some "resp") (fun _ => some 999)
      (fun _ => some ⟨0, []⟩) _ "u" none "resp" 999 rfl rfl (by decide)⟩

/-- C3: with `isNewRequest = true` the caller-supplied history is irrelevant:
`ExtractQueryInfo` produces the same result for any two histories, because the
extraction context is forced empty, so no slot extracted from a prior request
can appear in a new request's extraction. -/
theorem extractQueryInfo_new_request_ignores_history (gen : Gen)
    (parseExtract : String → Option ExtractResult) (u h1 h2 : String) :
    ExtractQueryInfo gen parseExtract u h1 true = ExtractQueryInfo gen parseExtract u h2 true := rfl

/-- C4 counterexample: the recovery of `ExtractQueryInfo` is not per-field.
With the parsed result providing `IsAsync` but leaving `IsUMICompliant` unset,
on an utterance for which the deterministic fallback would resolve
`IsUMICompliant` to true, the returned slot set still has `IsUMICompliant`
unknown: the fallback fills nothing because one other field was provided. -/
theorem extractQueryInfo_not_per_field_counterexample :
    ExtractQueryInfo (fun _ => some "x")
        (fun _ => some ⟨"", "", some true, none, none, [], []⟩)
        "umi compliant yes" "" true =
      .ok ⟨some true, none, none, [], [], "", ""⟩ ∧
    (extractQueryInfoFallback "umi compliant yes" "").IsUMICompliant = some true := by
  decide

/-- C4 amended: `ExtractQueryInfo` never returns an error — a failed generator
call or parse is absorbed by the deterministic fallback — but the fallback
merge is all-or-nothing, not per-field: it runs only when the parsed result
provides none of the three tri-states, no field names, and no usecase, and in
that case it fills each still-unset field while never overwriting a
generator-provided `Operation` and leaving `EventFields` untouched; whenever
any of those five is provided, the parsed result is returned unchanged and no
gap is filled. -/
theorem extractQueryInfo_fallback_merge_amended (gen : Gen)
    (parseExtract : String → Option ExtractResult)
    (userInput history : String) (isNewRequest : Bool) :
    (∃ qi, ExtractQueryInfo gen parseExtract userInput history isNewRequest = .ok qi) ∧
    (gen (.extract userInput (extractionContextMsg history isNewRequest)) = none →
      ExtractQueryInfo gen parseExtract userInput history isNewRequest =
        .ok (extractQueryInfoFallback userInput (extractionContext history isNewRequest))) ∧
    (∀ resp,
      gen (.extract userInput (extractionContextMsg history isNewRequest)) = some resp →
      parseExtract (extractJSON resp) = none →
      ExtractQueryInfo gen parseExtract userInput history isNewRequest =
        .ok (extractQueryInfoFallback userInput (extractionContext history isNewRequest))) ∧
    (∀ resp r,
      gen (.extract userInput (extractionContextMsg history isNewRequest)) = some resp →
      parseExtract (extractJSON resp) = some r →
      (¬(r.IsAsync = none ∧ r.IsUMICompliant = none ∧ r.IsPrivate = none ∧
          r.FieldNames = [] ∧ r.UseCase = "") →
        ExtractQueryInfo gen parseExtract userInput history isNewRequest =
          .ok ⟨r.IsAsync, r.IsUMICompliant, r.IsPrivate, r.FieldNames, r.EventFields,
               r.Operation, r.UseCase⟩) ∧
      ((r.IsAsync = none ∧ r.IsUMICompliant = none ∧ r.IsPrivate = none ∧
          r.FieldNames = [] ∧ r.UseCase = "") →
        ExtractQueryInfo gen parseExtract userInput history isNewRequest =
          .ok { IsAsync :=
                  (extractQueryInfoFallback userInput
                    (extractionContext history isNewRequest)).IsAsync,
                IsUMICompliant :=
                  (extractQueryInfoFallback userInput
                    (extractionContext history isNewRequest)).IsUMICompliant,
                IsPrivate :=
                  (extractQueryInfoFallback userInput
                    (extractionContext history isNewRequest)).IsPrivate,
                FieldNames :=
                  (extractQueryInfoFallback userInput
                    (extractionContext history isNewRequest)).FieldNames,
                EventFields := r.EventFields,
                Operation :=
                  if r.Operation = "" then
                    (extractQueryInfoFallback userInput
                      (extractionContext history isNewRequest)).Operation
                  else r.Operation,
                UseCase :=
                  (extractQueryInfoFallback userInput
                    (extractionContext history isNewRequest)).UseCase })) := by
  refine ⟨?_, ?_, ?_, ?_⟩
  · cases hg : gen (.extract userInput (extractionContextMsg history isNewRequest)) with
    | none =>
      simp only [ExtractQueryInfo, hg]
      exact ⟨_, rfl⟩
    | some resp =>
      cases hp : parseExtract (extractJSON resp) with
      | none =>
        simp only [ExtractQueryInfo, hg, hp]
        exact ⟨_, rfl⟩
      | some r =>
        by_cases hc : r.IsAsync = none ∧ r.IsUMICompliant = none ∧ r.IsPrivate = none ∧
            r.FieldNames = [] ∧ r.UseCase = ""
        · simp only [ExtractQueryInfo, hg, hp]
          rw [if_pos hc]
          exact ⟨_, rfl⟩
        · simp only [ExtractQueryInfo, hg, hp]
          rw [if_neg hc]
          exact ⟨_, rfl⟩
  · intro hg
    simp only [ExtractQueryInfo, hg]
  · intro resp hg hp
    simp only [ExtractQueryInfo, hg, hp]
  · intro resp r hg hp
    constructor
    · intro hnot
      simp only [ExtractQueryInfo, hg, hp]
      rw [if_neg (by simpa using hnot)]
    · intro hall
      obtain ⟨ha, hu, hp', hf, hc⟩ := hall
      simp only [ExtractQueryInfo, hg, hp]
      rw [if_pos (by simp [ha, hu, hp', hf, hc])]
      simp [ha, hu, hp', hf, hc]

/-- C4 amended witness: a parsed result providing only `Operation` triggers
the merge, which fills the tri-states from the fallback, keeps the
generator-provided operation, and keeps the parsed event fields. -/
theorem extractQueryInfo_fallback_merge_amended_witness :
    ExtractQueryInfo (fun _ => some "x")
        (fun _ => some ⟨"", "create", none, none, none, [], ["evt"]⟩)
        "umi compliant yes private" "h" false =
      .ok ⟨none, some true, some true, [], ["evt"], "create", ""⟩ := by
  have h := ((extractQueryInfo_fallback_merge_amended (fun _ => some "x")
      (fun _ => some ⟨"", "create", none, none, none, [], ["evt"]⟩)
      "umi compliant yes private" "h" false).2.2.2 "x"
      ⟨"", "create", none, none, none, [], ["evt"]⟩ rfl rfl).2 (by decide)
  exact h.trans (by decide)

/-- C5: an utterance matching an explanation phrase that does not trip the
irrelevance check is classified `(isCreation, isRelevant) = (false, true)` for
every generator, parser, and history — the generator is never consulted. -/
theorem classifyQuery_explanation_deterministic (userInput : String)
    (hexp : explainKeywords.any (fun k => goContains (goToLower userInput) k) = true)
    (hirr : (irrelevantKeywords.any (fun k => goContains (goToLower userInput) k) &&
      !apiRelatedCheck (goToLower userInput)) = false) :
    ∀ (gen : Gen) (parseClass : String → Option ClassResult) (history : String),
      ClassifyQuery gen parseClass userInput history = (false, true) := by
  intro gen parseClass history
  simp only [ClassifyQuery, hirr, hexp]
  simp

/-- C5 witness: "explain the id field" with a garbage generator is always
classified `(false, true)`. -/
theorem classifyQuery_explanation_deterministic_witness :
    (explainKeywords.any (fun k => goContains (goToLower "explain the id field") k) = true) ∧
    ((irrelevantKeywords.any (fun k => goContains (goToLower "explain the id field") k) &&
      !apiRelatedCheck (goToLower "explain the id field")) = false) ∧
    ClassifyQuery (fun _ => some "garbage") (fun _ => some ⟨true, false⟩)
      "explain the id field" "any history" = (false, true) :=
  ⟨by decide, by decide,
    classifyQuery_explanation_deterministic "explain the id field" (by decide) (by decide)
      (fun _ => some "garbage") (fun _ => some ⟨true, false⟩) "any history"⟩

/-- C6 counterexample: "create gold bond" has three whitespace-separated
tokens, yet `isNewCreationRequest` classifies it as a new request (creation
keyword plus domain noun), refuting the claim that utterances of at most
three tokens are never new requests. -/
theorem isNewCreationRequest_short_utterance_counterexample :
    (goFields "create gold bond").length ≤ 3 ∧
    isNewCreationRequest "create gold bond" "" = true := by
  decide

/-- C6 amended: an utterance of at most three tokens that contains no
creation keyword is never classified as a new request, whatever the
history. -/
theorem isNewCreationRequest_short_no_keyword_false (userInput history : String)
    (_hshort : (goFields userInput).length ≤ 3)
    (hnokw : creationKeywords.all (fun k => !goContains (goToLower userInput) k) = true) :
    isNewCreationRequest userInput history = false := by
  simp only [isNewCreationRequest]
  have hany : (creationKeywords.any (fun keyword =>
      goContains (goToLower userInput) keyword &&
        ((goContains (goToLower userInput) keyword &&
            (goContains (goToLower userInput) "asset" || goContains (goToLower userInput) "bond" ||
              goContains (goToLower userInput) "transaction" ||
              goContains (goToLower userInput) "gold" ||
              goContains (goToLower userInput) "token")) ||
          (!(goContains (goToLower userInput) "yes" || goContains (goToLower userInput) "no") &&
            decide ((goFields (goToLower userInput)).length > 2))))) = false := by
    rw [List.any_eq_false]
    intro k hk
    have := (List.all_eq_true.mp hnokw) k hk
    simp only [Bool.not_eq_true'] at this
    simp [this]
  rw [hany]
  simp

/-- C6 amended witness: the utterance "yes" after a non-trivial history is
not a new request. -/
theorem isNewCreationRequest_short_no_keyword_false_witness :
    (goFields "yes").length ≤ 3 ∧
    creationKeywords.all (fun k => !goContains (goToLower "yes") k) = true ∧
    isNewCreationRequest "yes" "Human: i want an asset\nAI: is it async?" = false :=
  ⟨by decide, by decide,
    isNewCreationRequest_short_no_keyword_false "yes"
      "Human: i want an asset\nAI: is it async?" (by decide) (by decide)⟩

/-- C7: when the usecase is set and the operation is unset,
`GenerateFollowUpQuestions` emits only the targeted operation question (the
generator paraphrase of the operation prompt, or the fixed
Create/Burn/Trade fallback), and the result is independent of every other
slot of the query info. -/
theorem followUp_usecase_priority (gen : Gen) (info : QueryInfo)
    (h1 : info.UseCase ≠ "") (h2 : info.Operation = "") :
    GenerateFollowUpQuestions gen info =
      (match gen (.followUpOperation info.UseCase) with
       | none => operationFallback info.UseCase
       | some response => goTrim response) ∧
    ∀ info' : QueryInfo, info'.UseCase = info.UseCase → info'.Operation = "" →
      GenerateFollowUpQuestions gen info' = GenerateFollowUpQuestions gen info := by
  constructor
  · simp only [GenerateFollowUpQuestions]
    rw [if_pos ⟨h1, h2⟩]
  · intro info' huc hop
    simp only [GenerateFollowUpQuestions]
    rw [if_pos ⟨huc ▸ h1, hop⟩, if_pos ⟨h1, h2⟩, huc]

set_option maxRecDepth 8192 in
/-- C7 witness: with the "gold bond" usecase, no operation, every slot
missing, and a failing generator, the follow-up is exactly the targeted
Create/Burn/Trade operation question. -/
theorem followUp_usecase_priority_witness :
    GenerateFollowUpQuestions (fun _ => none) ⟨none, none, none, [], [], "", "gold bond"⟩ =
      "For gold bond usecase, which operation do you want to perform?\n\n- CREATE/ISSUE → use req issue API\n- BURN/MANAGE → use req manage API\n- TRADE/SETTLE → use req settle API\n\nPlease specify: create, burn, or trade" := by
  have h := (followUp_usecase_priority (fun _ => none)
    ⟨none, none, none, [], [], "", "gold bond"⟩ (by decide) rfl).1
  exact h.trans (by decide)

/-- C8: when the gate fails and the usecase-without-operation priority rule
does not apply, `GenerateFollowUpQuestions` composes exactly one question over
the non-empty missing-item list (generator paraphrase, or the deterministic
numbered-list fallback), and the items are exactly the unmet gate conditions:
one per unknown tri-state, one for empty field names, and one for empty event
fields when `IsAsync` is true. -/
theorem followUp_single_question_missing_items (gen : Gen) (info : QueryInfo)
    (hpri : ¬(info.UseCase ≠ "" ∧ info.Operation = ""))
    (hgate : hasAllInfo info = false) :
    missingItems info ≠ [] ∧
    GenerateFollowUpQuestions gen info =
      (match gen (.followUpAll ((missingItems info).map renderItem).length
          (buildMissingList ((missingItems info).map renderItem))) with
       | none => numberedFallback ((missingItems info).map renderItem)
       | some response => goTrim response) ∧
    (MissingItem.askAsync ∈ missingItems info ↔ info.IsAsync = none) ∧
    (MissingItem.askUMI ∈ missingItems info ↔ info.IsUMICompliant = none) ∧
    (MissingItem.askPrivate ∈ missingItems info ↔ info.IsPrivate = none) ∧
    ((∃ uc op s, MissingItem.askFields uc op s ∈ missingItems info) ↔ info.FieldNames = []) ∧
    (MissingItem.askEventFields ∈ missingItems info ↔
      (info.IsAsync = some true ∧ info.EventFields = [])) := by
  have hne : missingItems info ≠ [] := by
    intro hnil
    rw [missingItems_eq_nil_iff] at hnil
    have : hasAllInfo info = true := by
      rw [hasAllInfo_char]
      refine ⟨hnil.1, hnil.2.1, hnil.2.2.1, hnil.2.2.2.1, ?_, ?_⟩
      · tauto
      · tauto
    rw [this] at hgate
    exact absurd hgate (by simp)
  refine ⟨hne, ?_, ?_, ?_, ?_, ?_, ?_⟩
  · simp only [GenerateFollowUpQuestions]
    rw [if_neg hpri]
    rw [if_neg (by simpa using hne)]
  · by_cases h1 : info.IsAsync = none <;>
      by_cases h5 : info.IsAsync = some true ∧ info.EventFields = [] <;>
      simp [missingItems, h1, h5]
  · by_cases h2 : info.IsUMICompliant = none <;> simp [missingItems, h2]
  · by_cases h3 : info.IsPrivate = none <;> simp [missingItems, h3]
  · by_cases h4 : info.FieldNames = [] <;> simp [missingItems, h4]
  · by_cases h5 : info.IsAsync = some true ∧ info.EventFields = [] <;>
      simp [missingItems, h5]

set_option maxRecDepth 8192 in
/-- C8 witness: with only `IsAsync` unknown, the missing list is exactly the
async item and the composed fallback question mentions only the async slot,
as a single question. -/
theorem followUp_single_question_missing_items_witness :
    missingItems ⟨none, some true, some true, ["id"], [], "", ""⟩ = [.askAsync] ∧
    GenerateFollowUpQuestions (fun _ => none) ⟨none, some true, some true, ["id"], [], "", ""⟩ =
      "To proceed with your request, I need the following information:\n1. Is this request async? (yes/no)\nPlease provide all of these details at once." := by
  have h := followUp_single_question_missing_items (fun _ => none)
    ⟨none, some true, some true, ["id"], [], "", ""⟩ (by decide) (by decide)
  exact ⟨by decide, h.2.1.trans (by decide)⟩

/-- C9: once API selection, field selection, and request-payload synthesis
succeed, `Recommend1` succeeds, and its event payload is `eventPayloadResult`:
the event generator is consulted exactly when the query info is present with
`IsAsync = true` and non-empty event fields; if that call fails the empty
string is substituted and the chosen API, fields, and request payload are
still returned with no error; outside that condition the event payload is the
empty string without any event generation. -/
theorem recommend1_event_payload_policy (gen : Gen) (p1 : String → Option Int)
    (p2 : String → Option Selection)
    (apis : List APIDoc) (user : String) (queryInfo : Option QueryInfo)
    (r1 r2 r3 : String) (idx : Int) (sel : Selection)
    (h1 : gen (.pickAPI (mkAPISummaries apis) (enhancedUserRequest user queryInfo)) = some r1)
    (h2 : p1 (extractJSON r1) = some idx)
    (h3 : ¬(idx < 0 ∨ (apis.length : Int) ≤ idx))
    (h4 : gen (mkFieldSelectPrompt apis idx user) = some r2)
    (h5 : p2 (extractJSON r2) = some sel)
    (h6 : gen (mkPayloadPrompt user queryInfo apis idx) = some r3) :
    Recommend1 gen p1 p2 apis user queryInfo =
      .ok (chosenAPI apis idx, pickedFields (chosenAPI apis idx) sel, goTrim r3,
           eventPayloadResult gen queryInfo) ∧
    (∀ qi, queryInfo = some qi → qi.IsAsync = some true → qi.EventFields ≠ [] →
      gen (.eventGen (String.intercalate ", " qi.EventFields)) = none →
      eventPayloadResult gen queryInfo = "") ∧
    (∀ qi, queryInfo = some qi → ¬(qi.IsAsync = some true ∧ qi.EventFields ≠ []) →
      eventPayloadResult gen queryInfo = "") ∧
    (queryInfo = none → eventPayloadResult gen queryInfo = "") := by
  refine ⟨?_, ?_, ?_, ?_⟩
  · simp only [Recommend1, h1, h2, h4, h5, h6]
    rw [if_neg h3]
  · intro qi hq hasync hev hfail
    subst hq
    simp only [eventPayloadResult, generateEventPayload, hfail]
    rw [if_pos ⟨hasync, hev⟩]
  · intro qi hq hnot
    subst hq
    simp only [eventPayloadResult]
    rw [if_neg hnot]
  · intro hq
    subst hq
    rfl

set_option maxRecDepth 8192 in
/-- C9 witness: async query info with event fields, all request stages
succeeding and the event generator failing — the pipeline still returns the
chosen API, the selected fields, and the request payload, with the empty
event payload. -/
theorem recommend1_event_payload_policy_witness :
    Recommend1
        (fun p => match p with
          | .eventGen _ => none
          | _ => some "resp")
        (fun _ => some 0) (fun _ => some ⟨0, []⟩)
        [⟨"A", "/a", "POST", "a", []⟩] "u"
        (some ⟨some true, some true, some true, ["id"], ["id"], "create", ""⟩) =
      .ok (⟨"A", "/a", "POST", "a", []⟩, [], "resp", "") := by
  have h := (recommend1_event_payload_policy
      (fun p => match p with
        | .eventGen _ => none
        | _ => some "resp")
      (fun _ => some 0) (fun _ => some ⟨0, []⟩)
      [⟨"A", "/a", "POST", "a", []⟩] "u"
      (some ⟨some true, some true, some true, ["id"], ["id"], "create", ""⟩)
      "resp" "resp" "resp" 0 ⟨0, []⟩ rfl rfl (by decide) rfl rfl rfl).1
  exact h.trans (by decide)

/-- C10: an utterance that is empty or only whitespace makes `ProcessMessage`
return the empty response with the empty-input error, hand back the caller's
session id unchanged (no fresh id is generated), and append nothing to the
conversation history. -/
theorem processMessage_empty_input (d : Deps) (store : List (String × String))
    (sessionID userInput : String) (h : goTrim userInput = "") :
    ProcessMessage d store sessionID userInput = ("", sessionID, some .emptyInput, store) := by
  simp [ProcessMessage, h]

/-- C10 witness: a whitespace-only utterance on a concrete dependency set
returns the empty-input error with the session id and history unchanged. -/
theorem processMessage_empty_input_witness :
    goTrim "   " = "" ∧
    ProcessMessage ⟨fun _ => none, fun _ => none, fun _ => none, fun _ => none, fun _ => none,
        some "", true, "fresh", []⟩ [] "sess-1" "   " = ("", "sess-1", some .emptyInput, []) :=
  ⟨by decide,
    processMessage_empty_input ⟨fun _ => none, fun _ => none, fun _ => none, fun _ => none,
      fun _ => none, some "", true, "fresh", []⟩ [] "sess-1" "   " (by decide)⟩

end UMI
